import Mathlib

/-!
Shallow embedding of the credential-resolution and request-dispatch core of
`ibm_cloud_sdk_core/base_service.py` (class `BaseService`).

Python strings are Lean `String`, Python `None`-able values are `Option`,
raised exceptions are the `Except` error branch.  Mutating methods on the
service object become state-passing functions `ServiceState → ... → Except
PyErr ServiceState` (or pure functions when the source method cannot raise).
String primitives are re-implemented on `List Char` so that every definition
reduces in the kernel.

External collaborators that the source reads but that are not part of this
repository snapshot (the filesystem lookup of the credentials file, the
`VCAP_SERVICES` environment JSON, `platform`/`__version__`, and the HTTP
transport `requests.request`) are passed in as explicit arguments: the file
as its list of lines, the service catalog as its already-extracted
credentials object, the transport as a function from the built request to a
response.
-/

deriving instance DecidableEq for Except

/-- Python `haystack.startswith(pat)` on strings, via char lists. -/
def strStartsWith (s pat : String) : Bool := List.isPrefixOf pat.data s.data

/-- Python `haystack.endswith(pat)` on strings, via char lists. -/
def strEndsWith (s pat : String) : Bool := List.isPrefixOf pat.data.reverse s.data.reverse

/-- Sublist-of-contiguous-chars test used to model Python `pat in haystack`. -/
def isSub : List Char → List Char → Bool
  | [], _ => true
  | _ :: _, [] => false
  | p, c :: cs => (List.isPrefixOf p (c :: cs)) || isSub p cs

/-- Python `pat in haystack` (substring containment). -/
def strContains (s pat : String) : Bool := isSub pat.data s.data

/-- Python `str.lower()` (ASCII case folding suffices for the keys involved). -/
def lowerStr (s : String) : String := ⟨s.data.map Char.toLower⟩

/-- Python `str.strip()`: drop whitespace from both ends. -/
def stripStr (s : String) : String :=
  ⟨((s.data.dropWhile Char.isWhitespace).reverse.dropWhile Char.isWhitespace).reverse⟩

/-- Python `str.split(sep)` for a one-character separator: split at every
occurrence, `"" .split` giving `[""]`, as in Python. -/
def splitCharAux (sep : Char) : List Char → List Char → List String
  | [], acc => [⟨acc.reverse⟩]
  | c :: cs, acc =>
      if c == sep then ⟨acc.reverse⟩ :: splitCharAux sep cs []
      else splitCharAux sep cs (c :: acc)

/-- Python `line.split(sep)` (the credential-file key/value separator). -/
def splitChar (sep : Char) (s : String) : List String := splitCharAux sep s.data []

/-- Python truthiness of an optional string: `None` and `""` are falsy. -/
def truthy : Option String → Bool
  | none => false
  | some s => !(s == "")

/-- Exceptions the embedded code can raise.  `valueError` is the
configuration error of the source (its message strings are elided: every
claim distinguishes errors by type only); `keyError` is the dict indexing
failure of `vcap_service_credentials[URL]`; `attributeError` is the failure
of an attribute lookup on an object that lacks it. -/
inductive PyErr where
  | valueError
  | keyError
  | attributeError
deriving DecidableEq, Repr

/-- Modelled from the spec: `has_bad_first_or_last_char` lives in
`utils.py`, which is not in this snapshot.  Spec: a credential string
"must not start or end with a brace or a double-quote character".
On `none` (no string supplied) the check passes, since only accepted
strings are constrained. -/
def has_bad_first_or_last_char : Option String → Bool
  | none => false
  | some s =>
      strStartsWith s "\x7b" || strStartsWith s "\x7d" || strStartsWith s "\"" ||
      strEndsWith s "\x7b" || strEndsWith s "\x7d" || strEndsWith s "\""

/-- Modelled from the spec: the `IAMTokenManager` class is not in this
snapshot.  Only the fields the `BaseService` claims touch are modelled
(`iam_apikey`, `iam_access_token`, `iam_url`); the token cache and the
exchange network call are out-of-scope collaborators, so `get_token` is
represented at the call site by the token string it returns. -/
structure IAMTokenManager where
  iam_apikey : Option String
  iam_access_token : Option String
  iam_url : Option String
deriving DecidableEq, Repr

/-- Modelled from the spec: mutator overwrites the access-token field. -/
def IAMTokenManager.set_access_token (tm : IAMTokenManager) (t : String) : IAMTokenManager :=
  { tm with iam_access_token := some t }

/-- Modelled from the spec: mutator overwrites the IAM URL field. -/
def IAMTokenManager.set_iam_url (tm : IAMTokenManager) (u : String) : IAMTokenManager :=
  { tm with iam_url := some u }

/-- Modelled from the spec: mutator overwrites the API-key field. -/
def IAMTokenManager.set_iam_apikey (tm : IAMTokenManager) (k : String) : IAMTokenManager :=
  { tm with iam_apikey := some k }

/-- The mutable fields of a `BaseService` instance set in `__init__`
(lines 67-78).  `http_config` and `verify` are omitted: no claim touches
the transport-option plumbing.  The cookie jar is tracked as a flag. -/
structure ServiceState where
  url : String
  username : Option String := none
  password : Option String := none
  api_key : Option String := none
  iam_apikey : Option String := none
  iam_access_token : Option String := none
  iam_url : Option String := none
  token_manager : Option IAMTokenManager := none
  default_headers : Option (List (String × String)) := none
  user_agent_header : List (String × String) := []
  jar : Bool := false
deriving DecidableEq, Repr

/-- `BaseService.set_username_and_password` (lines 188-198): validate both
strings, then store them and create the cookie jar. -/
def ServiceState.set_username_and_password (s : ServiceState) (username password : String) :
    Except PyErr ServiceState :=
  if has_bad_first_or_last_char (some username) then .error .valueError
  else if has_bad_first_or_last_char (some password) then .error .valueError
  else .ok { s with username := some username, password := some password, jar := true }

/-- `BaseService.set_token_manager` (lines 200-209): validate the API key
only, then build an `IAMTokenManager` and mirror the three fields. -/
def ServiceState.set_token_manager (s : ServiceState)
    (iam_apikey iam_access_token iam_url : Option String) : Except PyErr ServiceState :=
  if has_bad_first_or_last_char iam_apikey then .error .valueError
  else .ok { s with
    token_manager := some ⟨iam_apikey, iam_access_token, iam_url⟩,
    iam_apikey := iam_apikey, iam_access_token := iam_access_token, iam_url := iam_url,
    jar := true }

/-- `BaseService.set_iam_access_token` (lines 211-217): no validation in the
source; update or create the token manager, mirror the field. -/
def ServiceState.set_iam_access_token (s : ServiceState) (iam_access_token : String) :
    ServiceState :=
  let tm := match s.token_manager with
    | some tm => tm.set_access_token iam_access_token
    | none => ⟨none, some iam_access_token, none⟩
  { s with token_manager := some tm, iam_access_token := some iam_access_token, jar := true }

/-- `BaseService.set_iam_url` (lines 219-225): no validation in the source;
update or create the token manager, mirror the field. -/
def ServiceState.set_iam_url (s : ServiceState) (iam_url : String) : ServiceState :=
  let tm := match s.token_manager with
    | some tm => tm.set_iam_url iam_url
    | none => ⟨none, none, some iam_url⟩
  { s with token_manager := some tm, iam_url := some iam_url, jar := true }

/-- `BaseService.set_iam_apikey` (lines 227-236): validate, then update or
create the token manager, mirror the field. -/
def ServiceState.set_iam_apikey (s : ServiceState) (iam_apikey : String) :
    Except PyErr ServiceState :=
  if has_bad_first_or_last_char (some iam_apikey) then .error .valueError
  else
    let tm := match s.token_manager with
      | some tm => tm.set_iam_apikey iam_apikey
      | none => ⟨some iam_apikey, none, none⟩
    .ok { s with token_manager := some tm, iam_apikey := some iam_apikey, jar := true }

/-- `BaseService.set_url` (lines 238-242): validate, then store. -/
def ServiceState.set_url (s : ServiceState) (url : String) : Except PyErr ServiceState :=
  if has_bad_first_or_last_char (some url) then .error .valueError
  else .ok { s with url := url }

/-- `display_name.replace(' ', '_').lower()` (line 106). -/
def normalize_service_name (display_name : String) : String :=
  lowerStr ⟨display_name.data.map (fun c => if c == ' ' then '_' else c)⟩

/-- `BaseService._set_credential_based_on_type` (lines 161-174): a key that
contains the normalized service name is dispatched on the first credential
keyword it contains, in the source order of the `if`/`elif` chain. -/
def ServiceState.set_credential_based_on_type (s : ServiceState)
    (service_name key value : String) : Except PyErr ServiceState :=
  if strContains key service_name then
    if strContains key "apikey" then s.set_iam_apikey value
    else if strContains key "url" then s.set_url value
    else if strContains key "username" then .ok { s with username := some value }
    else if strContains key "password" then .ok { s with password := some value }
    else if strContains key "iam_apikey" then s.set_iam_apikey value
    else if strContains key "iam_url" then .ok (s.set_iam_url value)
    else .ok s
  else .ok s

/-- The line loop of `BaseService._load_from_credential_file` (lines
154-159) with the default separator: strip each line, split on the
separator, and feed exactly the two-field lines to the dispatcher with the
key lowercased.  The file-path resolution of lines 139-152 is the
filesystem collaborator; it is abstracted to the list of lines of the
resolved file (`[]` when no file was found). -/
def ServiceState.load_from_credential_file (s : ServiceState) (service_name : String) :
    List String → Except PyErr ServiceState
  | [] => .ok s
  | line :: rest =>
    match splitChar '=' (stripStr line) with
    | [k, v] =>
      match s.set_credential_based_on_type service_name (lowerStr k) v with
      | .ok s2 => s2.load_from_credential_file service_name rest
      | .error e => .error e
    | _ => s.load_from_credential_file service_name rest

/-- The credentials object extracted from the `VCAP_SERVICES` environment
JSON by `BaseService._load_from_vcap_services` (lines 176-183): the source
looks up `services[vcap_services_name][0]["credentials"]`; that JSON
plumbing is the environment collaborator, so resolution is abstracted to
its result — `none` when the variable or service entry is absent, otherwise
this record of the fields lines 115-125 read. -/
structure VcapCredentials where
  url : Option String := none
  username : Option String := none
  password : Option String := none
  apikey : Option String := none
  iam_apikey : Option String := none
  iam_access_token : Option String := none
deriving DecidableEq, Repr

/-- Step 1 of `BaseService.__init__` (lines 87-102): credentials passed in
the constructor.  The source compares `username is self.APIKEY`; for the
interned literal involved, CPython identity on it coincides with string
equality, which is how it is modelled.  The guard `iam_apikey and
iam_apikey.startswith(ICP_PREFIX)` tests Python truthiness first. -/
def BaseService.resolveExplicit (s : ServiceState)
    (username password api_key iam_apikey iam_access_token iam_url : Option String) :
    Except PyErr ServiceState :=
  match api_key with
  | some k =>
    if strStartsWith k "icp-" then s.set_username_and_password "apikey" k
    else s.set_token_manager (some k) iam_access_token iam_url
  | none =>
    match username, password with
    | some u, some p =>
      if u == "apikey" && !(strStartsWith p "icp-") then
        s.set_token_manager (some p) iam_access_token iam_url
      else s.set_username_and_password u p
    | _, _ =>
      if iam_access_token.isSome || iam_apikey.isSome then
        if truthy iam_apikey && strStartsWith (iam_apikey.getD "") "icp-" then
          s.set_username_and_password "apikey" (iam_apikey.getD "")
        else s.set_token_manager iam_apikey iam_access_token iam_url
      else .ok s

/-- Step 2 of `BaseService.__init__` (lines 104-107): consult the
credentials file only when a display name is truthy and neither a truthy
username nor a token manager is set. -/
def BaseService.credFilePhase (s : ServiceState) (display_name : Option String)
    (file_lines : List String) : Except PyErr ServiceState :=
  if truthy display_name && !truthy s.username && s.token_manager.isNone then
    s.load_from_credential_file (normalize_service_name (display_name.getD "")) file_lines
  else .ok s

/-- Step 3 of `BaseService.__init__` (lines 109-125): consult the service
catalog only when requested and neither a truthy username nor a token
manager is set.  Line 115 indexes `credentials[URL]` directly, so a
credentials object without a url raises `KeyError`. -/
def BaseService.vcapPhase (s : ServiceState) (use_vcap_services : Bool)
    (vcap : Option VcapCredentials) : Except PyErr ServiceState :=
  if use_vcap_services && !truthy s.username && s.token_manager.isNone then
    match vcap with
    | none => .ok s
    | some c => do
      let s ← match c.url with
        | none => Except.error PyErr.keyError
        | some u => Except.ok { s with url := u }
      let s := match c.username with | some v => { s with username := some v } | none => s
      let s := match c.password with | some v => { s with password := some v } | none => s
      let s ← match c.apikey with | some v => s.set_iam_apikey v | none => Except.ok s
      let s ← match c.iam_apikey with | some v => s.set_iam_apikey v | none => Except.ok s
      let s := match c.iam_access_token with | some v => s.set_iam_access_token v | none => s
      Except.ok s
  else .ok s

/-- Final check of `BaseService.__init__` (lines 127-130): `is None` tests,
not truthiness. -/
def BaseService.finalCheck (s : ServiceState) : Except PyErr ServiceState :=
  if (s.username.isNone || s.password.isNone) && s.token_manager.isNone then
    .error .valueError
  else .ok s

/-- Steps 2 and 3 of `BaseService.__init__` followed by its final check
(lines 104-130), split out of `BaseService.init` for reuse in proofs. -/
def BaseService.initTail (s1 : ServiceState) (display_name : Option String)
    (file_lines : List String) (use_vcap_services : Bool)
    (vcap : Option VcapCredentials) : Except PyErr ServiceState :=
  match BaseService.credFilePhase s1 display_name file_lines with
  | .error e => .error e
  | .ok s2 =>
    match BaseService.vcapPhase s2 use_vcap_services vcap with
    | .error e => .error e
    | .ok s3 => BaseService.finalCheck s3

/-- The field initialization of `BaseService.__init__` (lines 67-85):
defaulted fields plus the url and the user-agent header built at line 84
from `__version__` and `get_os_info()`.  Known divergence, immaterial to
every property proved here: at line 85 the source assigns the `None`
return value of `set_user_agent_header` back over the attribute that
method just populated, so after the real constructor the attribute is
`None` and the header merge of line 282 starts from an empty dict; this
model keeps the dict built at line 84 (none of the proved properties
reads the user-agent entry, and a later direct `set_user_agent_header`
call repopulates the attribute in the source). -/
def BaseService.initState (sdk_version os_info url : String) : ServiceState :=
  { url := url,
    user_agent_header :=
      [("user-agent", "ibm-python-sdk-core-" ++ sdk_version ++ os_info)] }

/-- `BaseService.__init__` (lines 57-130).  `sdk_version` and `os_info`
stand for `__version__` and `get_os_info()` (environment inputs, their
modules are not in this snapshot); `file_lines` and `vcap` are the
credential-source collaborators described above. -/
def BaseService.init (sdk_version os_info : String) (url : String)
    (username password : Option String) (use_vcap_services : Bool)
    (api_key iam_apikey iam_access_token iam_url : Option String)
    (display_name : Option String)
    (file_lines : List String) (vcap : Option VcapCredentials) :
    Except PyErr ServiceState :=
  if has_bad_first_or_last_char (some url) then .error .valueError
  else
    match BaseService.resolveExplicit (BaseService.initState sdk_version os_info url)
        username password api_key iam_apikey iam_access_token iam_url with
    | .error e => .error e
    | .ok s1 =>
      BaseService.initTail s1 display_name file_lines use_vcap_services vcap

/-- Modelled from the spec: `remove_null_values` lives in `utils.py`, which
is not in this snapshot.  Spec: strip null-valued entries from a map before
sending.  Values are `Option String` with `none` for Python `None`; the
companion `cleanup_values` only rewrites boolean values, which are outside
this value domain, so it is the identity here. -/
def remove_null_values (l : List (String × Option String)) : List (String × String) :=
  l.filterMap (fun p => p.2.map (fun v => (p.1, v)))

/-- Lookup in a `requests.structures.CaseInsensitiveDict`, modelled as an
association list whose mapping is keyed on the lowercased name. -/
def ciGet (m : List (String × String)) (k : String) : Option String :=
  (m.find? (fun p => lowerStr p.1 == lowerStr k)).map (fun p => p.2)

/-- `d[key] = val` on a case-insensitive dict: drop any binding with the
same lowercased key, append the new one. -/
def ciSetOne (m : List (String × String)) (kv : String × String) : List (String × String) :=
  (m.filter (fun p => !(lowerStr p.1 == lowerStr kv.1))) ++ [kv]

/-- `d.update(l)` on a case-insensitive dict: set each pair in order. -/
def ciUpdate (m : List (String × String)) (l : List (String × String)) :
    List (String × String) :=
  l.foldl ciSetOne m

/-- The binding a sequence of case-insensitive sets leaves for a key: the
last pair of the list whose name matches case-insensitively. -/
def lastMatch (l : List (String × String)) (k : String) : Option String :=
  (l.reverse.find? (fun p => lowerStr p.1 == lowerStr k)).map (fun p => p.2)

/-- Line 279-280 of `BaseService.request`:
`input_headers = remove_null_values(headers) if headers else` the empty
dict (`cleanup_values` is the identity on string-valued maps, see
`remove_null_values`). -/
def input_headers_of (headers : Option (List (String × Option String))) :
    List (String × String) :=
  match headers with
  | some hs => remove_null_values hs
  | none => []

/-- The header merge of `BaseService.request` (lines 282-287): start from
the user-agent header, overlay the service-level default headers, set
`accept` when a JSON response is requested, then overlay the per-call
headers. -/
def BaseService.mergeHeaders (s : ServiceState) (accept_json : Bool)
    (input_headers : List (String × String)) : List (String × String) :=
  let hdrs := s.user_agent_header
  let hdrs := match s.default_headers with
    | some d => ciUpdate hdrs d
    | none => hdrs
  let hdrs := if accept_json then ciSetOne hdrs ("accept", "application/json") else hdrs
  ciUpdate hdrs input_headers

/-- The outbound request handed to `requests.request` (lines 319-323):
url, headers, params, body, files and the basic-auth pair.  The cookie
jar and the transport options of lines 311-317 (timeout, `http_config`,
`verify`) are transport plumbing no claim touches and are omitted. -/
structure RequestOut where
  full_url : String
  headers : List (String × String)
  params : Option (List (String × String))
  data : Option String
  files : Option (List (String × String))
  auth : Option (String × String)
deriving DecidableEq, Repr

/-- The request-building half of `BaseService.request` (lines 276-317),
up to but not including the transport call.  `get_token_result` stands for
the value `self.token_manager.get_token()` returns at line 306 (the token
exchange is the out-of-scope collaborator).  Bodies are `Option String`
for `data` (the utf-8 encode of line 296-297 is the identity on this
model) and an optional JSON object for `json`.

At line 301 the source evaluates `json.dumps(json)`: the local name
`json` is the body parameter, which shadows the module imported as
`json_import` at line 21, and a dict has no attribute `dumps`, so
whenever that branch is reached (falsy `data`, non-`None` `json`) the
call raises `AttributeError` instead of serializing. -/
def BaseService.buildRequest (s : ServiceState) (get_token_result : String)
    (method url : String) (accept_json : Bool)
    (headers : Option (List (String × Option String)))
    (params : Option (List (String × Option String)))
    (json : Option (List (String × Option String)))
    (data : Option String)
    (files : Option (List (String × Option String))) :
    Except PyErr RequestOut :=
  let full_url := s.url ++ url
  let input_headers := input_headers_of headers
  let hdrs := BaseService.mergeHeaders s accept_json input_headers
  let params2 := params.map remove_null_values
  let json2 := json.map remove_null_values
  let files2 := files.map remove_null_values
  if !truthy data && json.isSome then
    .error .attributeError
  else
    let hdrs := match s.token_manager with
      | some _ => ciSetOne hdrs ("Authorization", "Bearer " ++ get_token_result)
      | none => hdrs
    let auth := if truthy s.username && truthy s.password then
        some (s.username.getD "", s.password.getD "")
      else none
    .ok { full_url := full_url, headers := hdrs, params := params2, data := data,
          files := files2, auth := auth }

/-- The transport response, as `BaseService.request` consumes it:
status code, headers, and the outcome of `response.json()` — `none` when
that call raises (no/invalid JSON text), `some v` for a parsed object. -/
structure PyResponse where
  status_code : Nat
  headers : List (String × String)
  json_parse : Option (List (String × Option String))
deriving DecidableEq, Repr

/-- The `result` slot of a `DetailedResponse`: `None`, the parsed JSON, or
the raw response object itself (the non-`accept_json` branch of line 336). -/
inductive ResponseBody where
  | absent
  | jsonBody (v : List (String × Option String))
  | raw (r : PyResponse)
deriving DecidableEq, Repr

/-- `DetailedResponse(result, headers, status_code)`. -/
structure DetailedResponse where
  result : ResponseBody
  headers : List (String × String)
  status_code : Nat
deriving DecidableEq, Repr

/-- `ApiException(code, message, http_response)`. -/
structure ApiException where
  code : Nat
  message : Option String
  http_response : PyResponse
deriving DecidableEq, Repr

/-- The response-mapping half of `BaseService.request` (lines 325-342). -/
def BaseService.process_response (method : String) (accept_json : Bool)
    (response : PyResponse) : Except ApiException DetailedResponse :=
  if 200 ≤ response.status_code && response.status_code ≤ 299 then
    if response.status_code == 204 || method == "HEAD" then
      .ok ⟨.absent, response.headers, response.status_code⟩
    else if accept_json then
      match response.json_parse with
      | none => .ok ⟨.absent, response.headers, response.status_code⟩
      | some v => .ok ⟨.jsonBody v, response.headers, response.status_code⟩
    else .ok ⟨.raw response, response.headers, response.status_code⟩
  else
    .error ⟨response.status_code,
      if response.status_code == 401 then
        some "Unauthorized: Access is denied due to invalid credentials"
      else none,
      response⟩

/-- Either kind of exception `BaseService.request` can raise. -/
inductive RequestError where
  | py (e : PyErr)
  | api (e : ApiException)
deriving DecidableEq, Repr

/-- `BaseService.request` (lines 276-342) end to end: build the request,
hand it to the transport collaborator, map the response. -/
def BaseService.request (s : ServiceState) (get_token_result : String)
    (transport : RequestOut → PyResponse)
    (method url : String) (accept_json : Bool)
    (headers params json : Option (List (String × Option String)))
    (data : Option String)
    (files : Option (List (String × Option String))) :
    Except RequestError DetailedResponse :=
  match BaseService.buildRequest s get_token_result method url accept_json
      headers params json data files with
  | .error e => .error (.py e)
  | .ok req =>
    match BaseService.process_response method accept_json (transport req) with
    | .error e => .error (.api e)
    | .ok d => .ok d

/-! Concrete fixtures used by counterexamples and witnesses. -/

/-- A base state with only a service URL, as left by the field
initialization of the constructor. -/
def srv0 : ServiceState := { url := "https://base.example.com" }

/-- Service-catalog credentials carrying a url, a username/password pair
and an API key at once, as a platform binding may. -/
def vcapBoth : VcapCredentials :=
  { url := some "https://vcap.example.com", username := some "vuser",
    password := some "vpass", apikey := some "vkey" }

/-- The state `BaseService.init` produces from `vcapBoth`: username and
password are set and a token manager is present at the same time. -/
def c1State : ServiceState :=
  { url := "https://vcap.example.com", username := some "vuser",
    password := some "vpass", iam_apikey := some "vkey",
    token_manager := some ⟨some "vkey", none, none⟩,
    user_agent_header := [("user-agent", "ibm-python-sdk-core-1.0 os")],
    jar := true }

/-- A basic-auth state for exercising the request pipeline. -/
def sBasic : ServiceState :=
  { url := "https://base.example.com", username := some "u", password := some "p" }

/-- A plain 200 transport response. -/
def r200 : PyResponse := { status_code := 200, headers := [], json_parse := none }

/-- The state produced by an explicit `icp-`-prefixed API key. -/
def sIcp : ServiceState :=
  { url := "https://e", username := some "apikey", password := some "icp-sek",
    user_agent_header := [("user-agent", "ibm-python-sdk-core-1o")], jar := true }

/-- The state produced by an explicit non-prefixed API key `mykey`. -/
def sIam : ServiceState :=
  { url := "https://e", iam_apikey := some "mykey",
    token_manager := some ⟨some "mykey", none, none⟩,
    user_agent_header := [("user-agent", "ibm-python-sdk-core-1o")], jar := true }

/-- A state with a token manager and a service-level default header. -/
def c9St : ServiceState :=
  { url := "https://e", token_manager := some ⟨some "k", none, none⟩,
    default_headers := some [("X-Test", "default")],
    user_agent_header := [("user-agent", "ua")] }

/-- A basic-auth state with a service-level default header. -/
def c9St2 : ServiceState :=
  { url := "https://e", username := some "u", password := some "p",
    default_headers := some [("X-Test", "default")],
    user_agent_header := [("user-agent", "ua")] }

/-- The request `c9St2` builds for a JSON call with per-call header
`x-test: call`. -/
def c9wReq : RequestOut :=
  { full_url := "https://e/p",
    headers := [("user-agent", "ua"), ("accept", "application/json"),
      ("x-test", "call")],
    params := none, data := some "d", files := none, auth := some ("u", "p") }

/-- The request `c1State` builds: bearer header and basic-auth pair at once. -/
def c10Req : RequestOut :=
  { full_url := "https://vcap.example.com/p",
    headers := [("user-agent", "ibm-python-sdk-core-1.0 os"),
      ("Authorization", "Bearer TOK")],
    params := none, data := none, files := none,
    auth := some ("vuser", "vpass") }

/-! Helper lemmas. -/

/-- If a truthy username or a token manager is already set, steps 2 and 3
of the constructor leave the state unchanged and only the final check runs. -/
theorem initTail_skip {s1 : ServiceState} (dn : Option String) (fl : List String)
    (uv : Bool) (vc : Option VcapCredentials)
    (h : truthy s1.username = true ∨ s1.token_manager.isSome = true) :
    BaseService.initTail s1 dn fl uv vc = BaseService.finalCheck s1 := by
  unfold BaseService.initTail BaseService.credFilePhase BaseService.vcapPhase
  rcases h with h | h
  · simp [h]
  · rcases ht : s1.token_manager with _ | tm
    · rw [ht] at h; simp at h
    · simp [ht]

/-- Dropping the bindings of a key removes every match for that key. -/
theorem find?_filter_same (m : List (String × String)) (k2 k : String)
    (hkk : lowerStr k2 = lowerStr k) :
    (m.filter (fun p => !(lowerStr p.1 == lowerStr k2))).find?
      (fun p => lowerStr p.1 == lowerStr k) = none := by
  rw [List.find?_eq_none]
  intro x hx
  rcases List.mem_filter.mp hx with ⟨_, hkeep⟩
  simp only [Bool.not_eq_true', beq_eq_false_iff_ne, ne_eq] at hkeep
  simp only [beq_iff_eq, hkk] at hkeep ⊢
  exact hkeep

/-- Dropping the bindings of a different key leaves the first match for a
key unchanged. -/
theorem find?_filter_other (m : List (String × String)) (k2 k : String)
    (hkk : lowerStr k2 ≠ lowerStr k) :
    (m.filter (fun p => !(lowerStr p.1 == lowerStr k2))).find?
      (fun p => lowerStr p.1 == lowerStr k) =
    m.find? (fun p => lowerStr p.1 == lowerStr k) := by
  induction m with
  | nil => rfl
  | cons p t ih =>
    by_cases hp : lowerStr p.1 = lowerStr k2
    · have hpk : ¬(lowerStr p.1 == lowerStr k) = true := by
        simp only [beq_iff_eq, hp]
        exact hkk
      rw [List.filter_cons, if_neg (by simp [hp]), ih,
        @List.find?_cons_of_neg _ (fun q => lowerStr q.1 == lowerStr k) p t hpk]
    · rw [List.filter_cons, if_pos (by simp [hp])]
      by_cases hx : (lowerStr p.1 == lowerStr k) = true
      · rw [@List.find?_cons_of_pos _ (fun q => lowerStr q.1 == lowerStr k) p _ hx,
          @List.find?_cons_of_pos _ (fun q => lowerStr q.1 == lowerStr k) p t hx]
      · rw [@List.find?_cons_of_neg _ (fun q => lowerStr q.1 == lowerStr k) p _ hx,
          @List.find?_cons_of_neg _ (fun q => lowerStr q.1 == lowerStr k) p t hx, ih]

/-- Lookup after a case-insensitive set: the new binding wins on its own
key, every other key is unaffected. -/
theorem ciGet_setOne (m : List (String × String)) (kv : String × String) (k : String) :
    ciGet (ciSetOne m kv) k =
      if lowerStr kv.1 = lowerStr k then some kv.2 else ciGet m k := by
  unfold ciGet ciSetOne
  rw [List.find?_append]
  by_cases hx : lowerStr kv.1 = lowerStr k
  · rw [find?_filter_same m kv.1 k hx, if_pos hx]
    rw [@List.find?_cons_of_pos _ (fun q => lowerStr q.1 == lowerStr k) kv []
      (by simp [hx])]
    rfl
  · rw [find?_filter_other m kv.1 k hx, if_neg hx]
    rw [@List.find?_cons_of_neg _ (fun q => lowerStr q.1 == lowerStr k) kv []
      (by simp [hx])]
    simp

/-- Lookup after a case-insensitive bulk update: the last matching pair of
the update list wins, otherwise the original mapping answers. -/
theorem ciGet_update (l : List (String × String)) (m : List (String × String))
    (k : String) :
    ciGet (ciUpdate m l) k = (lastMatch l k).or (ciGet m k) := by
  induction l generalizing m with
  | nil => simp [ciUpdate, lastMatch]
  | cons p t ih =>
    rw [show ciUpdate m (p :: t) = ciUpdate (ciSetOne m p) t from rfl, ih,
      ciGet_setOne]
    unfold lastMatch
    rw [List.reverse_cons, List.find?_append]
    rcases hlm : (t.reverse.find? fun q => lowerStr q.1 == lowerStr k) with _ | v
    · by_cases hx : lowerStr p.1 = lowerStr k
      · rw [@List.find?_cons_of_pos _ (fun q => lowerStr q.1 == lowerStr k) p []
          (by simp [hx]), if_pos hx]
        simp [hlm]
      · rw [@List.find?_cons_of_neg _ (fun q => lowerStr q.1 == lowerStr k) p []
          (by simp [hx]), if_neg hx]
        simp [hlm]
    · simp [hlm]

/-- A successfully built request carries exactly the merged headers (plus
the bearer overlay when a token manager is present) and the basic-auth pair
iff username and password are truthy. -/
theorem buildRequest_ok_inv (s : ServiceState) (tok method url : String)
    (aj : Bool) (headers params json : Option (List (String × Option String)))
    (data : Option String) (files : Option (List (String × Option String)))
    (req : RequestOut)
    (h : BaseService.buildRequest s tok method url aj headers params json data files =
      Except.ok req) :
    req.headers = (if s.token_manager.isSome = true then
        ciSetOne (BaseService.mergeHeaders s aj (input_headers_of headers))
          ("Authorization", "Bearer " ++ tok)
      else BaseService.mergeHeaders s aj (input_headers_of headers))
    ∧ req.auth = (if truthy s.username && truthy s.password then
        some (s.username.getD "", s.password.getD "") else none) := by
  unfold BaseService.buildRequest at h
  simp only [] at h
  split at h
  · exact Except.noConfusion h
  · injection h with h
    subst h
    rcases htm : s.token_manager with _ | tm <;> exact ⟨rfl, rfl⟩

/-- Lookup in the merged header map: per-call headers first, then the
`accept` overlay when JSON is requested, then default headers, then the
user-agent header. -/
theorem mergeHeaders_ciGet (s : ServiceState) (aj : Bool)
    (input : List (String × String)) (k : String) :
    ciGet (BaseService.mergeHeaders s aj input) k =
      (lastMatch input k).or
        (if aj = true ∧ lowerStr "accept" = lowerStr k then some "application/json"
         else (lastMatch (s.default_headers.getD []) k).or
           (ciGet s.user_agent_header k)) := by
  have hbase : ciGet (match s.default_headers with
      | some d => ciUpdate s.user_agent_header d
      | none => s.user_agent_header) k =
      (lastMatch (s.default_headers.getD []) k).or (ciGet s.user_agent_header k) := by
    rcases hd : s.default_headers with _ | d
    · simp [lastMatch]
    · rw [ciGet_update]; rfl
  unfold BaseService.mergeHeaders
  simp only []
  rw [ciGet_update]
  congr 1
  rcases aj with _ | _
  · rw [if_neg (by simp)]
    exact hbase
  · rw [if_pos rfl, ciGet_setOne]
    by_cases hacc : lowerStr "accept" = lowerStr k
    · rw [if_pos hacc, if_pos ⟨rfl, hacc⟩]
    · rw [if_neg hacc, if_neg (by intro hc; exact hacc hc.2)]
      exact hbase


/-! Claim theorems. -/

/-- Claim C1, amended: after every successful construction at least one
authentication mode is active — username and password both set, or a token
manager present; construction never succeeds with neither.  (The claimed
XOR fails: both modes can be active at once, see the counterexample.) -/
theorem claim_C1 (sdk os url : String) (username password : Option String)
    (uv : Bool) (api_key iam_apikey iam_access_token iam_url : Option String)
    (dn : Option String) (fl : List String) (vc : Option VcapCredentials)
    (s : ServiceState)
    (h : BaseService.init sdk os url username password uv api_key iam_apikey
      iam_access_token iam_url dn fl vc = Except.ok s) :
    (s.username.isSome ∧ s.password.isSome) ∨ s.token_manager.isSome := by
  unfold BaseService.init BaseService.initTail at h
  split at h
  · exact Except.noConfusion h
  · split at h
    · exact Except.noConfusion h
    · split at h
      · exact Except.noConfusion h
      · split at h
        · exact Except.noConfusion h
        · unfold BaseService.finalCheck at h
          split at h
          · exact Except.noConfusion h
          · rename_i hcond
            injection h with h
            subst h
            rcases hu : ServiceState.username _ with _ | u <;>
              rcases hp : ServiceState.password _ with _ | p <;>
              rcases ht : ServiceState.token_manager _ with _ | tm <;>
              simp_all

/-- Claim C1 counterexample: a construction through the service-catalog
path succeeds with username, password and a token manager all set, so the
claimed exactly-one-mode XOR does not hold. -/
theorem claim_C1_counterexample :
    BaseService.init "1.0" " os" "https://e.example.com" none none true
      none none none none none [] (some vcapBoth) = Except.ok c1State
    ∧ c1State.username.isSome = true ∧ c1State.password.isSome = true
    ∧ c1State.token_manager.isSome = true := by decide

/-- Claim C1 witness: the amended theorem applied to the concrete
catalog-based construction. -/
theorem claim_C1_witness :
    (c1State.username.isSome ∧ c1State.password.isSome) ∨ c1State.token_manager.isSome :=
  claim_C1 "1.0" " os" "https://e.example.com" none none true none none none none
    none [] (some vcapBoth) c1State (by decide)

/-- Claim C2, amended: a string with a leading or trailing brace or quote
is rejected with a configuration error wherever the code validates — the
constructor url, `set_url`, `set_username_and_password` (either argument),
`set_iam_apikey`, and the API key of `set_token_manager` — but
`set_iam_url` and `set_iam_access_token` perform no validation and store
any string unchanged. -/
theorem claim_C2 (str other : String) (s : ServiceState)
    (tok iurl : Option String) (sdk os : String)
    (hbad : has_bad_first_or_last_char (some str) = true)
    (hother : has_bad_first_or_last_char (some other) = false) :
    s.set_url str = Except.error PyErr.valueError
    ∧ s.set_username_and_password str other = Except.error PyErr.valueError
    ∧ s.set_username_and_password other str = Except.error PyErr.valueError
    ∧ s.set_iam_apikey str = Except.error PyErr.valueError
    ∧ s.set_token_manager (some str) tok iurl = Except.error PyErr.valueError
    ∧ (∀ (u p : Option String) (uv : Bool) (ak iak it iu dn : Option String)
        (fl : List String) (vc : Option VcapCredentials),
        BaseService.init sdk os str u p uv ak iak it iu dn fl vc =
          Except.error PyErr.valueError)
    ∧ (s.set_iam_url str).iam_url = some str
    ∧ (s.set_iam_access_token str).iam_access_token = some str := by
  refine ⟨?_, ?_, ?_, ?_, ?_, ?_, ?_, ?_⟩
  · simp [ServiceState.set_url, hbad]
  · simp [ServiceState.set_username_and_password, hbad]
  · simp [ServiceState.set_username_and_password, hbad, hother]
  · simp [ServiceState.set_iam_apikey, hbad]
  · simp [ServiceState.set_token_manager, hbad]
  · intro u p uv ak iak it iu dn fl vc
    simp [BaseService.init, hbad]
  · simp [ServiceState.set_iam_url]
  · simp [ServiceState.set_iam_access_token]

/-- Claim C2 counterexample: `set_iam_url` accepts a brace-delimited
string without error and stores it (in the state and the token manager),
and `set_iam_access_token` likewise stores a quote-delimited token, though
the claim requires both mutators to fail with a configuration error. -/
theorem claim_C2_counterexample :
    has_bad_first_or_last_char (some "\x7bbad\x7d") = true
    ∧ (srv0.set_iam_url "\x7bbad\x7d").iam_url = some "\x7bbad\x7d"
    ∧ (srv0.set_iam_url "\x7bbad\x7d").token_manager =
        some ⟨none, none, some "\x7bbad\x7d"⟩
    ∧ (srv0.set_iam_access_token "\"tok\"").iam_access_token = some "\"tok\"" := by
  decide

/-- Claim C2 witness: the amended theorem applied to a concrete
brace-delimited string. -/
theorem claim_C2_witness :
    srv0.set_url "\x7bu\x7d" = Except.error PyErr.valueError
    ∧ (srv0.set_iam_url "\x7bu\x7d").iam_url = some "\x7bu\x7d" := by
  have h := claim_C2 "\x7bu\x7d" "goodvalue" srv0 none none "1" "o"
    (by decide) (by decide)
  exact ⟨h.1, h.2.2.2.2.2.2.1⟩

/-- Claim C3: the code contradicts the claim.  For a credentials-file line
whose key contains the service name and `iam_url`, the dispatcher matches
the `url` keyword first (it is a substring of `iam_url`), so `set_url`
overwrites the service base URL and the token-manager IAM URL is never
set; the `iam_url` branch of the dispatch is unreachable. -/
theorem claim_C3 :
    strContains (lowerStr "MY_SERVICE_IAM_URL") "iam_url" = true
    ∧ srv0.set_credential_based_on_type "my_service" "my_service_iam_url"
        "https://iam.example.com" =
      Except.ok { srv0 with url := "https://iam.example.com" }
    ∧ (srv0.load_from_credential_file "my_service"
        ["MY_SERVICE_IAM_URL=https://iam.example.com"]).map
        (fun s => (s.url, s.iam_url, s.token_manager)) =
      Except.ok ("https://iam.example.com", none, none) := by decide

/-- Claim C4: the code contradicts the claim.  With no raw body and a JSON
body present, line 301 evaluates `json.dumps(json)` on the body dict that
shadows the json module, so the request raises `AttributeError` instead of
serializing the body and sending. -/
theorem claim_C4 :
    BaseService.buildRequest sBasic "tok" "POST" "/v1/x" false
      none none (some [("a", some "b")]) none none =
      Except.error PyErr.attributeError
    ∧ BaseService.request sBasic "tok" (fun _ => r200) "POST" "/v1/x" false
      none none (some [("a", some "b")]) none none =
      Except.error (RequestError.py PyErr.attributeError) := by decide

/-- Claim C5: an explicit `icp-`-prefixed API key yields basic auth with
username `apikey` and the key as password; a non-prefixed explicit API key
yields a token manager; explicit username exactly `apikey` with a
non-`icp-` password also yields a token manager built from the password. -/
theorem claim_C5 (sdk os url : String) (username password : Option String)
    (uv : Bool) (api_key iam_apikey iam_access_token iam_url : Option String)
    (dn : Option String) (fl : List String) (vc : Option VcapCredentials)
    (s : ServiceState) (k : String)
    (h : BaseService.init sdk os url username password uv api_key iam_apikey
      iam_access_token iam_url dn fl vc = Except.ok s) :
    (api_key = some k → strStartsWith k "icp-" = true →
      s.username = some "apikey" ∧ s.password = some k ∧ s.token_manager = none)
    ∧ (api_key = some k → strStartsWith k "icp-" = false →
      s.token_manager = some ⟨some k, iam_access_token, iam_url⟩)
    ∧ (api_key = none → username = some "apikey" → password = some k →
      strStartsWith k "icp-" = false →
      s.token_manager = some ⟨some k, iam_access_token, iam_url⟩
      ∧ s.username = none ∧ s.password = none) := by
  refine ⟨?_, ?_, ?_⟩
  · intro hak hicp
    subst hak
    unfold BaseService.init at h
    split at h
    · exact Except.noConfusion h
    · simp only [BaseService.resolveExplicit, hicp,
        ServiceState.set_username_and_password] at h
      rw [show has_bad_first_or_last_char (some "apikey") = false from by decide] at h
      rcases hb : has_bad_first_or_last_char (some k) with _ | _ <;> rw [hb] at h
      · simp only [Bool.false_eq_true, if_false, if_true] at h
        rw [initTail_skip _ _ _ _ (Or.inl (by rfl))] at h
        unfold BaseService.finalCheck at h
        simp only [Option.isNone_some, Bool.false_or, Bool.or_self,
          Bool.false_and, Bool.and_self, Bool.false_eq_true, if_false] at h
        injection h with h
        subst h
        exact ⟨rfl, rfl, rfl⟩
      · simp at h
  · intro hak hicp
    subst hak
    unfold BaseService.init at h
    split at h
    · exact Except.noConfusion h
    · simp only [BaseService.resolveExplicit, hicp,
        ServiceState.set_token_manager] at h
      rcases hb : has_bad_first_or_last_char (some k) with _ | _ <;> rw [hb] at h
      · simp only [Bool.false_eq_true, if_false, if_true] at h
        rw [initTail_skip _ _ _ _ (Or.inr (by rfl))] at h
        unfold BaseService.finalCheck at h
        simp only [Option.isNone_some, Option.isNone_none, Bool.true_or,
          Bool.or_true, Bool.and_false, Bool.false_eq_true, if_false] at h
        injection h with h
        subst h
        rfl
      · simp at h
  · intro hak hu hp hicp
    subst hak; subst hu; subst hp
    unfold BaseService.init at h
    split at h
    · exact Except.noConfusion h
    · simp only [BaseService.resolveExplicit, hicp,
        ServiceState.set_token_manager] at h
      rcases hb : has_bad_first_or_last_char (some k) with _ | _ <;> rw [hb] at h
      · simp only [Bool.false_eq_true, if_false, if_true, beq_self_eq_true,
          Bool.not_false, Bool.and_self] at h
        rw [initTail_skip _ _ _ _ (Or.inr (by rfl))] at h
        unfold BaseService.finalCheck at h
        simp only [Option.isNone_some, Option.isNone_none, Bool.true_or,
          Bool.or_true, Bool.and_false, Bool.false_eq_true, if_false] at h
        injection h with h
        subst h
        exact ⟨rfl, rfl, rfl⟩
      · simp at h

/-- Claim C5 witness: the theorem applied to three concrete
constructions, one per routing branch. -/
theorem claim_C5_witness :
    (sIcp.username = some "apikey" ∧ sIcp.password = some "icp-sek" ∧
      sIcp.token_manager = none)
    ∧ sIam.token_manager = some ⟨some "mykey", none, none⟩
    ∧ (sIam.token_manager = some ⟨some "mykey", none, none⟩ ∧
        sIam.username = none ∧ sIam.password = none) := by
  refine ⟨?_, ?_, ?_⟩
  · exact (claim_C5 "1" "o" "https://e" none none true (some "icp-sek") none none
      none none [] none sIcp "icp-sek" (by decide)).1 rfl (by decide)
  · exact (claim_C5 "1" "o" "https://e" none none true (some "mykey") none none
      none none [] none sIam "mykey" (by decide)).2.1 rfl (by decide)
  · exact (claim_C5 "1" "o" "https://e" (some "apikey") (some "mykey") true none none
      none none none [] none sIam "mykey" (by decide)).2.2 rfl rfl rfl (by decide)

/-- Claim C6: when the explicit constructor arguments already produced a
truthy username or a token manager, the construction result does not
depend on the credentials file or the service catalog. -/
theorem claim_C6 (sdk os url : String) (username password : Option String)
    (uv : Bool) (api_key iam_apikey iam_access_token iam_url : Option String)
    (dn : Option String) (s1 : ServiceState)
    (hres : BaseService.resolveExplicit (BaseService.initState sdk os url)
      username password api_key iam_apikey iam_access_token iam_url = Except.ok s1)
    (hset : truthy s1.username = true ∨ s1.token_manager.isSome = true)
    (fl1 fl2 : List String) (vc1 vc2 : Option VcapCredentials) :
    BaseService.init sdk os url username password uv api_key iam_apikey
      iam_access_token iam_url dn fl1 vc1 =
    BaseService.init sdk os url username password uv api_key iam_apikey
      iam_access_token iam_url dn fl2 vc2 := by
  unfold BaseService.init
  split
  · rfl
  · simp only [hres]
    rw [initTail_skip _ _ _ _ hset, initTail_skip _ _ _ _ hset]

/-- Claim C6 witness: with an explicit API key, a populated credentials
file and a populated catalog give the same result as no file and no
catalog, and the result carries the explicit key, not the file key. -/
theorem claim_C6_witness :
    BaseService.init "1" "o" "https://e" none none true (some "mykey") none none
      none (some "My Service") ["MY_SERVICE_APIKEY=filekey"] none =
    BaseService.init "1" "o" "https://e" none none true (some "mykey") none none
      none (some "My Service") [] (some vcapBoth)
    ∧ BaseService.init "1" "o" "https://e" none none true (some "mykey") none none
      none (some "My Service") ["MY_SERVICE_APIKEY=filekey"] none =
      Except.ok sIam := by
  constructor
  · exact claim_C6 "1" "o" "https://e" none none true (some "mykey") none none
      none (some "My Service") sIam (by decide) (Or.inr (by decide))
      ["MY_SERVICE_APIKEY=filekey"] [] none (some vcapBoth)
  · decide

/-- Claim C7: every 2xx transport response maps to a success result
carrying the response headers and status; a 204 status or a HEAD method
gives an absent body, and a failed JSON parse on a requested JSON response
also gives a success with an absent body. -/
theorem claim_C7 (method : String) (accept_json : Bool) (r : PyResponse)
    (h1 : 200 ≤ r.status_code) (h2 : r.status_code ≤ 299) :
    ∃ d, BaseService.process_response method accept_json r = Except.ok d
      ∧ d.headers = r.headers ∧ d.status_code = r.status_code
      ∧ ((r.status_code = 204 ∨ method = "HEAD") → d.result = ResponseBody.absent)
      ∧ (accept_json = true → r.json_parse = none →
          d.result = ResponseBody.absent) := by
  unfold BaseService.process_response
  have hc : (200 ≤ r.status_code && r.status_code ≤ 299) = true := by
    simp [h1, h2]
  rw [hc]
  by_cases h204 : (r.status_code == 204 || method == "HEAD") = true
  · rw [if_pos rfl, if_pos h204]
    exact ⟨_, rfl, rfl, rfl, fun _ => rfl, fun _ _ => rfl⟩
  · rw [if_pos rfl, if_neg h204]
    rcases haj : accept_json with _ | _
    · rw [if_neg (by simp)]
      refine ⟨_, rfl, rfl, rfl, fun hor => absurd ?_ h204, fun hf => absurd hf (by simp)⟩
      rcases hor with h | h
      · simp [h]
      · simp [h]
    · rw [if_pos rfl]
      rcases hj : r.json_parse with _ | v
      · exact ⟨_, rfl, rfl, rfl, fun _ => rfl, fun _ _ => rfl⟩
      · refine ⟨_, rfl, rfl, rfl, fun hor => absurd ?_ h204,
          fun _ hn => Option.noConfusion hn⟩
        rcases hor with h | h
        · simp [h]
        · simp [h]

/-- Claim C7 witness: the theorem applied to a concrete 204 response. -/
theorem claim_C7_witness :
    ∃ d, BaseService.process_response "GET" true
        { status_code := 204, headers := [("h", "v")], json_parse := none } =
        Except.ok d
      ∧ d.headers = [("h", "v")] ∧ d.status_code = 204
      ∧ ((204 = 204 ∨ "GET" = "HEAD") → d.result = ResponseBody.absent)
      ∧ (true = true → none = (none : Option (List (String × Option String))) →
          d.result = ResponseBody.absent) :=
  claim_C7 "GET" true { status_code := 204, headers := [("h", "v")], json_parse := none }
    (by decide) (by decide)

/-- Claim C8: every non-2xx transport response raises an ApiException
carrying the status code and the raw response, whose message is the fixed
unauthorized text if and only if the status is 401, and is `None` for
every other non-2xx status. -/
theorem claim_C8 (method : String) (accept_json : Bool) (r : PyResponse)
    (h : r.status_code < 200 ∨ 299 < r.status_code) :
    ∃ e, BaseService.process_response method accept_json r = Except.error e
      ∧ e.code = r.status_code ∧ e.http_response = r
      ∧ (e.message =
          some "Unauthorized: Access is denied due to invalid credentials" ↔
          r.status_code = 401)
      ∧ (r.status_code ≠ 401 → e.message = none) := by
  unfold BaseService.process_response
  have hc : (200 ≤ r.status_code && r.status_code ≤ 299) = false := by
    rcases h with h | h <;> simp <;> omega
  rw [hc]
  rw [if_neg (by simp)]
  refine ⟨_, rfl, rfl, rfl, ?_, ?_⟩
  · rcases h401 : (r.status_code == 401) with _ | _
    · rw [if_neg (by simp [h401])]
      constructor
      · intro hb; exact Option.noConfusion hb
      · intro hb; rw [hb] at h401; simp at h401
    · rw [if_pos (by simp [h401])]
      simp only [beq_iff_eq] at h401
      exact ⟨fun _ => h401, fun _ => rfl⟩
  · intro hne
    rw [if_neg (by simp [hne])]

/-- Claim C8 witness: the theorem applied to a concrete 401 response (the
canned message is present) and to a concrete 500 response (the message is
absent). -/
theorem claim_C8_witness :
    (∃ e, BaseService.process_response "GET" false
        { status_code := 401, headers := [], json_parse := none } = Except.error e
      ∧ e.code = 401
      ∧ e.http_response = { status_code := 401, headers := [], json_parse := none }
      ∧ (e.message =
          some "Unauthorized: Access is denied due to invalid credentials" ↔
          (401 : Nat) = 401)
      ∧ ((401 : Nat) ≠ 401 → e.message = none))
    ∧ (∃ e, BaseService.process_response "GET" false
        { status_code := 500, headers := [], json_parse := none } = Except.error e
      ∧ e.code = 500
      ∧ e.http_response = { status_code := 500, headers := [], json_parse := none }
      ∧ (e.message =
          some "Unauthorized: Access is denied due to invalid credentials" ↔
          (500 : Nat) = 401)
      ∧ ((500 : Nat) ≠ 401 → e.message = none)) :=
  ⟨claim_C8 "GET" false { status_code := 401, headers := [], json_parse := none }
    (Or.inr (by decide)),
   claim_C8 "GET" false { status_code := 500, headers := [], json_parse := none }
    (Or.inr (by decide))⟩

/-- Claim C9, amended: header lookup on a built request resolves by
precedence per-call over `accept` over defaults over user-agent,
case-insensitively — except that when a token manager is present the
`Authorization` header is overwritten with the bearer token after the
merge, so a per-call `Authorization` header does not win. -/
theorem claim_C9 (s : ServiceState) (tok method url : String) (aj : Bool)
    (hs : List (String × Option String))
    (params json : Option (List (String × Option String)))
    (data : Option String) (files : Option (List (String × Option String)))
    (req : RequestOut)
    (h : BaseService.buildRequest s tok method url aj (some hs) params json data
      files = Except.ok req) (k : String) :
    ciGet req.headers k =
      if s.token_manager.isSome = true ∧ lowerStr "Authorization" = lowerStr k then
        some ("Bearer " ++ tok)
      else
        (lastMatch (remove_null_values hs) k).or
          (if aj = true ∧ lowerStr "accept" = lowerStr k then some "application/json"
           else (lastMatch (s.default_headers.getD []) k).or
             (ciGet s.user_agent_header k)) := by
  obtain ⟨hh, -⟩ := buildRequest_ok_inv s tok method url aj (some hs) params json
    data files req h
  rw [hh]
  by_cases htm : s.token_manager.isSome = true
  · rw [if_pos htm, ciGet_setOne]
    by_cases hau : lowerStr "Authorization" = lowerStr k
    · rw [if_pos hau, if_pos ⟨htm, hau⟩]
    · rw [if_neg hau, if_neg (by intro hc; exact hau hc.2), mergeHeaders_ciGet]
      rfl
  · rw [if_neg htm, if_neg (by intro hc; exact htm hc.1), mergeHeaders_ciGet]
    rfl

/-- Claim C9 counterexample: a per-call `Authorization: custom` header is
present in the per-call map, yet the built request carries the bearer
token, so per-call headers do not always have highest precedence in the
final header map. -/
theorem claim_C9_counterexample :
    lastMatch (remove_null_values [("Authorization", some "custom")]) "Authorization"
      = some "custom"
    ∧ (BaseService.buildRequest c9St "TOK" "GET" "/p" false
        (some [("Authorization", some "custom")]) none none (some "d") none).map
        (fun r => ciGet r.headers "Authorization") =
      Except.ok (some "Bearer TOK") := by decide

/-- Claim C9 witness: the amended theorem applied to a concrete request —
the per-call `x-test` header overrides the default `X-Test`
case-insensitively, and the `accept` overlay is present. -/
theorem claim_C9_witness :
    BaseService.buildRequest c9St2 "TOK" "GET" "/p" true
      (some [("x-test", some "call")]) none none (some "d") none = Except.ok c9wReq
    ∧ ciGet c9wReq.headers "X-Test" = some "call"
    ∧ ciGet c9wReq.headers "accept" = some "application/json" := by
  refine ⟨by decide, ?_, ?_⟩
  · rw [claim_C9 c9St2 "TOK" "GET" "/p" true [("x-test", some "call")] none none
      (some "d") none c9wReq (by decide) "X-Test"]
    decide
  · rw [claim_C9 c9St2 "TOK" "GET" "/p" true [("x-test", some "call")] none none
      (some "d") none c9wReq (by decide) "accept"]
    decide

/-- Claim C10: on a state carrying both a token manager and a truthy
username/password pair, one built request carries the bearer
`Authorization` header and the basic-auth pair at the same time. -/
theorem claim_C10 (s : ServiceState) (tok method url : String) (aj : Bool)
    (headers params json : Option (List (String × Option String)))
    (data : Option String) (files : Option (List (String × Option String)))
    (req : RequestOut) (tm : IAMTokenManager) (u p : String)
    (htm : s.token_manager = some tm)
    (hu : s.username = some u) (hut : u ≠ "")
    (hp : s.password = some p) (hpt : p ≠ "")
    (h : BaseService.buildRequest s tok method url aj headers params json data files
      = Except.ok req) :
    ciGet req.headers "Authorization" = some ("Bearer " ++ tok)
    ∧ req.auth = some (u, p) := by
  obtain ⟨hh, ha⟩ := buildRequest_ok_inv s tok method url aj headers params json
    data files req h
  constructor
  · rw [hh, if_pos (by rw [htm]; rfl), ciGet_setOne, if_pos rfl]
  · rw [ha, if_pos (by simp [truthy, hu, hp, hut, hpt]), hu, hp]
    rfl

/-- Claim C10 witness: the state reached through the service-catalog path
decorates a concrete request with both credentials at once. -/
theorem claim_C10_witness :
    BaseService.init "1.0" " os" "https://e.example.com" none none true none none
      none none none [] (some vcapBoth) = Except.ok c1State
    ∧ BaseService.buildRequest c1State "TOK" "GET" "/p" false none none none none
        none = Except.ok c10Req
    ∧ ciGet c10Req.headers "Authorization" = some ("Bearer " ++ "TOK")
    ∧ c10Req.auth = some ("vuser", "vpass") := by
  refine ⟨by decide, by decide, ?_, ?_⟩
  · exact (claim_C10 c1State "TOK" "GET" "/p" false none none none none none c10Req
      ⟨some "vkey", none, none⟩ "vuser" "vpass" rfl rfl (by decide) rfl (by decide)
      (by decide)).1
  · exact (claim_C10 c1State "TOK" "GET" "/p" false none none none none none c10Req
      ⟨some "vkey", none, none⟩ "vuser" "vpass" rfl rfl (by decide) rfl (by decide)
      (by decide)).2
